import Mathlib

/-!
Shallow embedding of the stumpless Windows Event Log (WEL) support module,
translated from the repository source (src/unnamed/part_000, the wel_supported
module).  Pointers are modelled as Option values, wide strings as lists of
natural numbers (one entry per WCHAR), UTF-8 strings as lists of bytes, and
machine integers as Nat (all values handled by the module are small and
non-negative; WORD/DWORD truncation never occurs on the ranges involved).
Mutex operations (lock_wel_data / unlock_wel_data) bracket every critical
section in the source and are dropped here: each public operation is a single
atomic state transformation.  Memory allocation (alloc_mem / realloc_mem) can
fail; this is modelled by an explicit oracle, a list of Bool consumed one
entry per allocation, where an exhausted oracle means every further
allocation succeeds.  free_mem calls are not modelled (freeing has no
observable effect on the embedded state beyond the field assignments the
source performs).
-/

/-- Windows event type flags, from winnt.h (external to this repository). -/
def EVENTLOG_SUCCESS : Nat := 0

/-- Windows event type flag for error events (winnt.h). -/
def EVENTLOG_ERROR_TYPE : Nat := 1

/-- Windows event type flag for warning events (winnt.h). -/
def EVENTLOG_WARNING_TYPE : Nat := 2

/-- Windows event type flag for information events (winnt.h). -/
def EVENTLOG_INFORMATION_TYPE : Nat := 4

/-- Windows event type flag for audit success events (winnt.h). -/
def EVENTLOG_AUDIT_SUCCESS : Nat := 8

/-- Windows event type flag for audit failure events (winnt.h). -/
def EVENTLOG_AUDIT_FAILURE : Nat := 16

/-- Windows error code for success (winerror.h). -/
def ERROR_SUCCESS : Nat := 0

/-- Windows error code for a missing file or registry key (winerror.h). -/
def ERROR_FILE_NOT_FOUND : Nat := 2

/-- Windows error code for an allocation failure (winerror.h). -/
def ERROR_NOT_ENOUGH_MEMORY : Nat := 8

/-- Windows error code for an invalid parameter (winerror.h). -/
def ERROR_INVALID_PARAMETER : Nat := 87

/-- Syslog severity value for EMERG (stumpless public severity constants,
conventional syslog encoding). -/
def STUMPLESS_SEVERITY_EMERG_VALUE : Nat := 0

/-- Syslog severity value for ALERT. -/
def STUMPLESS_SEVERITY_ALERT_VALUE : Nat := 1

/-- Syslog severity value for CRIT. -/
def STUMPLESS_SEVERITY_CRIT_VALUE : Nat := 2

/-- Syslog severity value for ERR. -/
def STUMPLESS_SEVERITY_ERR_VALUE : Nat := 3

/-- Syslog severity value for WARNING. -/
def STUMPLESS_SEVERITY_WARNING_VALUE : Nat := 4

/-- Syslog severity value for NOTICE. -/
def STUMPLESS_SEVERITY_NOTICE_VALUE : Nat := 5

/-- Syslog severity value for INFO. -/
def STUMPLESS_SEVERITY_INFO_VALUE : Nat := 6

/-- Syslog severity value for DEBUG. -/
def STUMPLESS_SEVERITY_DEBUG_VALUE : Nat := 7

/-- Error ids raised into the process-wide last-error slot by the module
(the raise_* helper family of stumpless).  Only the kinds reachable from the
embedded operations are included. -/
inductive ErrorId where
  | allocation_failure
  | index_out_of_bounds
  | invalid_encoding
  | mb_conversion_failure
  | wide_conversion_failure
  | windows_failure
  | null_argument
deriving DecidableEq, Repr

/-- Allocation oracle step, modelling one call of alloc_mem / realloc_mem:
the head of the oracle says whether this allocation succeeds, and the tail
is what later allocations consume.  An exhausted oracle always succeeds. -/
def alloc_step (o : List Bool) : Bool × List Bool :=
  (o.headD true, o.tail)

/-- Modelled from the spec: get_severity is declared in
src/include/private/severity.h but its definition (severity.c) is not under
src/.  Per the header doc it returns the STUMPLESS_SEVERITY_*_VALUE constant
of the prival, and per the spec glossary a prival packs facility and severity
as facility * 8 + severity, so the severity is the prival modulo 8. -/
def get_severity (prival : Nat) : Nat :=
  prival % 8

/-- Modelled from the spec: get_facility is declared in private/facility.h,
which is not under src/.  Per the spec glossary a prival packs facility and
severity as facility * 8 + severity, and the spec consumes a pure function
from the packed priority value to the facility, so the facility is the prival
divided by 8 (section 8 of the spec instantiates facility(p) with the plain
facility number, e.g. 1 for a prival encoding facility 1). -/
def get_facility (prival : Nat) : Nat :=
  prival / 8

/-- Translation of get_category (part_000 lines 1547-1550): the severity of
the prival plus one. -/
def get_category (prival : Nat) : Nat :=
  get_severity prival + 1

/-- Translation of get_type (part_000 lines 1557-1577): a total mapping from
the severity of the prival to a Windows event type, defaulting to
EVENTLOG_ERROR_TYPE. -/
def get_type (prival : Nat) : Nat :=
  if get_severity prival = STUMPLESS_SEVERITY_DEBUG_VALUE then
    EVENTLOG_SUCCESS
  else if get_severity prival = STUMPLESS_SEVERITY_NOTICE_VALUE ∨
          get_severity prival = STUMPLESS_SEVERITY_INFO_VALUE then
    EVENTLOG_INFORMATION_TYPE
  else if get_severity prival = STUMPLESS_SEVERITY_WARNING_VALUE then
    EVENTLOG_WARNING_TYPE
  else
    EVENTLOG_ERROR_TYPE

/-- Translation of get_event_id (part_000 lines 1552-1555):
( get_facility( prival ) >> 3 ) + ( get_type( prival ) * 23 ) + 1. -/
def get_event_id (prival : Nat) : Nat :=
  (get_facility prival >>> 3) + (get_type prival * 23) + 1

/-- Model of struct stumpless_param (external entry/param model): only the
value (a UTF-8 byte list, with value_length equal to its list length) is
relevant to this module. -/
structure stumpless_param where
  value : List Nat
deriving DecidableEq, Repr

/-- Model of struct wel_data: the entry-attached WEL metadata record.  The
two insertion arrays are parallel lists of nullable cells; insertion_count is
the separately stored element count field.  The mutex field is dropped (see
the module comment).  The category / event_id / type scalars are
uninitialized in the C struct until their _set flag becomes TRUE; they are
modelled as plain Nat fields (their value is unobservable while the flag is
false). -/
structure wel_data where
  category_set : Bool
  category : Nat
  event_id_set : Bool
  event_id : Nat
  type_set : Bool
  type : Nat
  insertion_strings : List (Option (List Nat))
  insertion_params : List (Option stumpless_param)
  insertion_count : Nat
deriving DecidableEq, Repr

/-- Model of struct stumpless_entry, reduced to the fields this module
reads: the packed priority value (read via stumpless_get_entry_prival) and
the attached wel_data record.  Entries handed to the public accessors are
non-NULL and carry an initialized record (created alongside the entry), so
wel_data is a plain field here; the NULL-destination case of copy_wel_data
is modelled separately in its result type. -/
structure stumpless_entry where
  prival : Nat
  wel_data : wel_data
deriving DecidableEq, Repr

/-- The record produced by initialize_wel_data (part_000 lines 1579-1599) on
allocation success: all three override flags FALSE, both insertion arrays
NULL (empty), count zero.  The scalar override fields are left uninitialized
by the C code and modelled as 0 (they are unobservable while the flags are
false). -/
def fresh_wel_data : wel_data :=
  { category_set := false
    category := 0
    event_id_set := false
    event_id := 0
    type_set := false
    type := 0
    insertion_strings := []
    insertion_params := []
    insertion_count := 0 }

/-- Translation of initialize_wel_data (part_000 lines 1579-1599): allocates
the record (one oracle step) and returns the fresh record on success. -/
def init_wel_data (o : List Bool) : Option wel_data × List Bool :=
  let s := alloc_step o
  if s.1 = false then (none, s.2) else (some fresh_wel_data, s.2)

/-- Effect of realloc_mem to max_index + 1 cells followed by the
zero-filling loop of resize_insertion_params: cells below the stored count
keep the old array value (cells past the old allocation are uninitialized in
C and never written nor read before being overwritten; they are modelled as
none, which is exactly what the loop writes on the covered range), and cells
from count through max_index are set to NULL by the loop. -/
def grow_fill (l : List (Option α)) (count max_index : Nat) : List (Option α) :=
  (List.range (max_index + 1)).map fun i =>
    if i < count then l.getD i none else none

/-- Translation of resize_insertion_params (part_000 lines 1606-1647): two
reallocations, each consuming one oracle step.  If the first fails the data
is unchanged; if the second fails the params array has already been resized
(the last successfully resized state persists) while the strings array and
the count are unchanged; on success both arrays are resized and the count
becomes max_index + 1.  The returned Bool models the NULL / non-NULL result
pointer. -/
def resize_insertion_params (d : wel_data) (max_index : Nat) (o : List Bool) :
    wel_data × Bool × List Bool :=
  if (alloc_step o).1 = false then
    (d, false, (alloc_step o).2)
  else if (alloc_step (alloc_step o).2).1 = false then
    ({ d with
       insertion_params := grow_fill d.insertion_params d.insertion_count max_index },
     false, (alloc_step (alloc_step o).2).2)
  else
    ({ d with
       insertion_params := grow_fill d.insertion_params d.insertion_count max_index,
       insertion_strings := grow_fill d.insertion_strings d.insertion_count max_index,
       insertion_count := max_index + 1 },
     true, (alloc_step (alloc_step o).2).2)

/-- Translation of swap_wel_insertion_string (part_000 lines 490-505), which
locks the record and runs unsafe_swap_wel_insertion_string (lines 1678-1696):
grow if the index is at or past the count (failing if the resize fails,
with the partially resized state persisting), otherwise free the previous
owned string, then install the new owned wide string at the index.  The
insertion_params cell at the index is not touched on the in-bounds path. -/
def swap_wel_insertion_string (e : stumpless_entry) (index : Nat)
    (str : List Nat) (o : List Bool) : stumpless_entry × Bool × List Bool :=
  if e.wel_data.insertion_count ≤ index then
    let r := resize_insertion_params e.wel_data index o
    if r.2.1 = false then
      ({ e with wel_data := r.1 }, false, r.2.2)
    else
      ({ e with wel_data :=
           { r.1 with
             insertion_strings := r.1.insertion_strings.set index (some str) } },
       true, r.2.2)
  else
    ({ e with wel_data :=
         { e.wel_data with
           insertion_strings := e.wel_data.insertion_strings.set index (some str) } },
     true, o)

/-- Translation of stumpless_set_wel_insertion_string_w (part_000 lines
1285-1294) going through set_wel_insertion_string_w (lines 554-567): a copy
of the wide string is allocated (copy_lpcwstr, one oracle step), then the
copy is swapped in.  Result components: the entry state after the call, the
NULL / non-NULL return, the last-error slot after the call, the remaining
oracle. -/
def stumpless_set_wel_insertion_string_w (e : stumpless_entry) (index : Nat)
    (str : List Nat) (o : List Bool) :
    stumpless_entry × Bool × Option ErrorId × List Bool :=
  let s := alloc_step o
  if s.1 = false then
    (e, false, some ErrorId.allocation_failure, s.2)
  else
    let r := swap_wel_insertion_string e index str s.2
    (r.1, r.2.1,
     if r.2.1 = true then none else some ErrorId.allocation_failure, r.2.2)

/-- Translation of stumpless_set_wel_insertion_string (part_000 lines
1274-1283) going through set_wel_insertion_string (lines 523-536): the UTF-8
argument is converted to a wide string by copy_cstring_to_lpcwstr
(MultiByteToWideChar, an external Windows conversion modelled by the enc
parameter, plus one allocation), then the copy is swapped in. -/
def stumpless_set_wel_insertion_string_utf8
    (enc : List Nat → Option (List Nat)) (e : stumpless_entry) (index : Nat)
    (str : List Nat) (o : List Bool) :
    stumpless_entry × Bool × Option ErrorId × List Bool :=
  match enc str with
  | none => (e, false, some ErrorId.mb_conversion_failure, o)
  | some w =>
    let s := alloc_step o
    if s.1 = false then
      (e, false, some ErrorId.allocation_failure, s.2)
    else
      let r := swap_wel_insertion_string e index w s.2
      (r.1, r.2.1,
       if r.2.1 = true then none else some ErrorId.allocation_failure, r.2.2)

/-- Translation of stumpless_set_wel_insertion_param (part_000 lines
1245-1272): grow the arrays if the index is at or past the count (failing on
resize failure), then install the borrowed param reference at the index,
clear the owned string cell there and free the previous owned string.  The
param argument carries no NULL check in the source, so a none param is
installed like any other value. -/
def stumpless_set_wel_insertion_param (e : stumpless_entry) (index : Nat)
    (param : Option stumpless_param) (o : List Bool) :
    stumpless_entry × Bool × Option ErrorId × List Bool :=
  if e.wel_data.insertion_count ≤ index then
    let r := resize_insertion_params e.wel_data index o
    if r.2.1 = false then
      ({ e with wel_data := r.1 }, false,
       some ErrorId.allocation_failure, r.2.2)
    else
      ({ e with wel_data :=
           { r.1 with
             insertion_params := r.1.insertion_params.set index param,
             insertion_strings := r.1.insertion_strings.set index none } },
       true, none, r.2.2)
  else
    ({ e with wel_data :=
         { e.wel_data with
           insertion_params := e.wel_data.insertion_params.set index param,
           insertion_strings := e.wel_data.insertion_strings.set index none } },
     true, none, o)

/-- Translation of stumpless_get_wel_category (part_000 lines 999-1019): the
explicit override when category_set, otherwise derived from the entry prival
through get_category. -/
def stumpless_get_wel_category (e : stumpless_entry) : Nat :=
  if e.wel_data.category_set then e.wel_data.category
  else get_category e.prival

/-- Translation of stumpless_get_wel_event_id (part_000 lines 1021-1041). -/
def stumpless_get_wel_event_id (e : stumpless_entry) : Nat :=
  if e.wel_data.event_id_set then e.wel_data.event_id
  else get_event_id e.prival

/-- Translation of stumpless_get_wel_type (part_000 lines 1175-1195). -/
def stumpless_get_wel_type (e : stumpless_entry) : Nat :=
  if e.wel_data.type_set then e.wel_data.type
  else get_type e.prival

/-- Translation of stumpless_get_wel_insertion_param (part_000 lines
1043-1067): IndexOutOfBounds when the index is at or past the count,
otherwise the (possibly NULL) borrowed reference with the error slot
cleared. -/
def stumpless_get_wel_insertion_param (e : stumpless_entry) (index : Nat) :
    Option stumpless_param × Option ErrorId :=
  if e.wel_data.insertion_count ≤ index then
    (none, some ErrorId.index_out_of_bounds)
  else
    (e.wel_data.insertion_params.getD index none, none)

/-- Translation of stumpless_get_wel_insertion_string (part_000 lines
1069-1140): IndexOutOfBounds past the count; otherwise a param reference
takes precedence (its value is copied, one allocation), else an owned wide
string is converted back to UTF-8 (WideCharToMultiByte modelled by the dec
parameter, plus one allocation), else NULL is returned with no error. -/
def stumpless_get_wel_insertion_string
    (dec : List Nat → Option (List Nat)) (e : stumpless_entry) (index : Nat)
    (o : List Bool) : Option (List Nat) × Option ErrorId :=
  if e.wel_data.insertion_count ≤ index then
    (none, some ErrorId.index_out_of_bounds)
  else
    match e.wel_data.insertion_params.getD index none with
    | some param =>
      if (alloc_step o).1 = true then (some param.value, none)
      else (none, some ErrorId.allocation_failure)
    | none =>
      match e.wel_data.insertion_strings.getD index none with
      | some w =>
        match dec w with
        | none => (none, some ErrorId.wide_conversion_failure)
        | some str =>
          if (alloc_step o).1 = true then (some str, none)
          else (none, some ErrorId.allocation_failure)
      | none => (none, none)

/-- Result of copy_wel_data: whether the function returned the destination
entry (non-NULL), the wel_data record attached to the destination entry
after the call, and the last-error slot. -/
structure CopyResult where
  ok : Bool
  dest_data : Option wel_data
  err : Option ErrorId
deriving DecidableEq, Repr

/-- The per-slot copy loop of copy_wel_data (part_000 lines 1498-1508),
processed in index order on the zipped source cells: each borrowed param
reference is copied as a reference, each present owned string is duplicated
by copy_lpcwstr (one allocation each, which can fail).  Returns none when a
string duplication fails (the fail_set_strings path). -/
def copy_slots :
    List (Option stumpless_param × Option (List Nat)) → List Bool →
    Option (List (Option stumpless_param) × List (Option (List Nat))) × List Bool
  | [], o => (some ([], []), o)
  | (p, none) :: rest, o =>
    match copy_slots rest o with
    | (some (ps, ss), o') => (some (p :: ps, none :: ss), o')
    | (none, o') => (none, o')
  | (p, some w) :: rest, o =>
    if (alloc_step o).1 = false then (none, (alloc_step o).2)
    else
      match copy_slots rest (alloc_step o).2 with
      | (some (ps, ss), o') => (some (p :: ps, some w :: ss), o')
      | (none, o') => (none, o')

/-- Translation of copy_wel_data (part_000 lines 1464-1528).  The first
oracle step is the record allocation of config_initialize_wel_data, which on
success immediately attaches the fresh record to the destination entry; the
scalar overrides are then copied unconditionally.  When the source has a
positive insertion count, the params array and the strings array are
allocated (one oracle step each) and the slots copied; on any of these
failures the function returns NULL with the record still attached to the
destination (its array fields are freed on the fail paths but the record
itself is neither freed nor detached; the freed buffers are modelled by
none-filled lists, which no theorem inspects). -/
def copy_wel_data (src : wel_data) (o : List Bool) : CopyResult :=
  if (alloc_step o).1 = false then
    { ok := false, dest_data := none, err := some ErrorId.allocation_failure }
  else
    let o0 := (alloc_step o).2
    let dest1 : wel_data :=
      { fresh_wel_data with
        type := src.type, type_set := src.type_set,
        category := src.category, category_set := src.category_set,
        event_id := src.event_id, event_id_set := src.event_id_set }
    if src.insertion_count = 0 then
      { ok := true, dest_data := some dest1, err := none }
    else
      if (alloc_step o0).1 = false then
        { ok := false, dest_data := some dest1,
          err := some ErrorId.allocation_failure }
      else
        let o1 := (alloc_step o0).2
        if (alloc_step o1).1 = false then
          { ok := false,
            dest_data := some
              { dest1 with
                insertion_params := List.replicate src.insertion_count none },
            err := some ErrorId.allocation_failure }
        else
          let o2 := (alloc_step o1).2
          let slots := (List.range src.insertion_count).map fun i =>
            (src.insertion_params.getD i none, src.insertion_strings.getD i none)
          match copy_slots slots o2 with
          | (none, _) =>
            { ok := false,
              dest_data := some
                { dest1 with
                  insertion_params := List.replicate src.insertion_count none,
                  insertion_strings := List.replicate src.insertion_count none },
              err := some ErrorId.allocation_failure }
          | (some (ps, ss), _) =>
            { ok := true,
              dest_data := some
                { dest1 with
                  insertion_params := ps,
                  insertion_strings := ss,
                  insertion_count := src.insertion_count },
              err := none }

/-- The typed values of a per-source nested registry subkey (spec section 6).
Each value is none until a RegSetValueExW call writes it. -/
structure SourceValues where
  category_count : Option Nat
  category_file : Option (List Nat)
  event_file : Option (List Nat)
  parameter_file : Option (List Nat)
  types_supported : Option Nat
deriving DecidableEq, Repr

/-- A freshly created per-source subkey holds no values. -/
def empty_source_values : SourceValues :=
  { category_count := none
    category_file := none
    event_file := none
    parameter_file := none
    types_supported := none }

/-- The registry state at the complete event-source subkey: the Sources
MULTI_SZ value (raw WCHAR list including terminators, or none if the value
has never been written) and the per-source nested subkeys with their typed
values. -/
structure RegKey where
  sources : Option (List Nat)
  source_subkeys : List (List Nat × SourceValues)
deriving DecidableEq, Repr

/-- Translation of populate_event_source_subkey (part_000 lines 199-284):
writes CategoryCount, the three message-file values (each only when a
non-NULL path was supplied), and TypesSupported into the subkey.  Registry
write failures are environmental and not modelled (each would abort the
surrounding transaction). -/
def populate_event_source_subkey (v : SourceValues) (category_count : Nat)
    (category_file event_file parameter_file : Option (List Nat))
    (types_supported : Nat) : SourceValues :=
  { category_count := some category_count
    category_file := match category_file with
      | some f => some f
      | none => v.category_file
    event_file := match event_file with
      | some f => some f
      | none => v.event_file
    parameter_file := match parameter_file with
      | some f => some f
      | none => v.parameter_file
    types_supported := some types_supported }

/-- Lookup of a per-source nested subkey by name (RegCreateKeyTransactedW
opens an existing subkey of that name if present). -/
def assoc_lookup : List (List Nat × SourceValues) → List Nat →
    Option SourceValues
  | [], _ => none
  | (k, v) :: rest, name =>
    if k = name then some v else assoc_lookup rest name

/-- Store of a per-source nested subkey by name: replaces the existing
subkey contents of that name, or appends a new subkey. -/
def set_assoc : List (List Nat × SourceValues) → List Nat → SourceValues →
    List (List Nat × SourceValues)
  | [], name, v => [(name, v)]
  | (k, w) :: rest, name, v =>
    if k = name then (name, v) :: rest else (k, w) :: set_assoc rest name v

/-- Length of a wide string up to its first NUL, as wcslen computes it
(reading stops at the end of the modelled buffer). -/
def wstr_at (l : List Nat) : List Nat :=
  l.takeWhile fun c => c != 0

/-- Translation of multi_sz_contains (part_000 lines 459-476): walk the
MULTI_SZ value string by string until the empty terminator, comparing each
against str.  The wcsncmp( current, str, wcslen( str ) + 1 ) == 0 test is
equality of the NUL-terminated string at the cursor with str; str is a plain
name with no interior NULs in every use in the module, for which that test
is equality with the cursor string. -/
def multi_sz_contains (value str : List Nat) : Bool :=
  if h : value = [] then false
  else
    if (wstr_at value).length = 0 then false
    else if wstr_at value = str then true
    else multi_sz_contains (value.drop ((wstr_at value).length + 1)) str
termination_by value.length
decreasing_by
  simp only [List.length_drop]
  exact Nat.sub_lt (List.length_pos.mpr h) (Nat.succ_pos _)

/-- The individual strings of a MULTI_SZ value, in order, as the walk of
multi_sz_contains enumerates them: read string by string until the empty
terminator. -/
def msz_strings (raw : List Nat) : List (List Nat) :=
  if h : raw = [] then []
  else
    if (wstr_at raw).length = 0 then []
    else wstr_at raw :: msz_strings (raw.drop ((wstr_at raw).length + 1))
termination_by raw.length
decreasing_by
  simp only [List.length_drop]
  exact Nat.sub_lt (List.length_pos.mpr h) (Nat.succ_pos _)

/-- Translation of create_event_source_subkey (part_000 lines 333-448), the
create-fresh path: inside one transaction the subkey is created, its Sources
value set to the double-NUL-terminated source name buffer, the per-source
nested subkey created and populated, and the transaction committed.
Transaction and registry failures are environmental and not modelled (any
failure closes the transaction uncommitted, rolling everything back). -/
def create_event_source_subkey (source_name : List Nat) (category_count : Nat)
    (category_file event_file parameter_file : Option (List Nat))
    (types_supported : Nat) : RegKey :=
  { sources := some (source_name ++ [0, 0])
    source_subkeys :=
      [(source_name,
        populate_event_source_subkey empty_source_values category_count
          category_file event_file parameter_file types_supported)] }

/-- Result of add_event_source: the registry state at the complete subkey
after the call, the returned Windows error code, and the last-error slot. -/
structure InstallResult where
  reg : Option RegKey
  code : Nat
  err : Option ErrorId
deriving DecidableEq, Repr

/-- Translation of add_event_source (part_000 lines 606-816), operating on
the registry state at the complete subkey (base path plus subkey name; the
subkey-name buffer construction only selects which key is meant and is
abstracted into the reg argument).  source_name is the name without its
terminators; the C buffer is source_name with two trailing NULs.  If the key
does not exist, the create-fresh path runs.  Otherwise the Sources MULTI_SZ
value is read (a missing value fails the read; the ERROR_MORE_DATA retry
with a heap buffer re-reads the same value and is invisible here), validated
to be empty or double-NUL-terminated, the name appended to it unless already
present (memcpy of value_size - 2 bytes keeps all but the last WCHAR; the
one spare uninitialized byte of the odd-sized rewrite is below WCHAR
granularity and invisible to every WCHAR-level read), and the per-source
nested subkey created and populated inside a fresh transaction.  Allocation
and registry failures on this path are environmental and not modelled. -/
def add_event_source (reg : Option RegKey) (source_name : List Nat)
    (category_count : Nat)
    (category_file event_file parameter_file : Option (List Nat))
    (types_supported : Nat) : InstallResult :=
  match reg with
  | none =>
    { reg := some (create_event_source_subkey source_name category_count
        category_file event_file parameter_file types_supported)
      code := ERROR_SUCCESS
      err := none }
  | some key =>
    match key.sources with
    | none =>
      { reg := some key, code := ERROR_FILE_NOT_FOUND,
        err := some ErrorId.windows_failure }
    | some raw =>
      if raw.headD 0 ≠ 0 ∧
         ¬(raw.getD (raw.length - 2) 0 = 0 ∧ raw.getD (raw.length - 1) 0 = 0)
      then
        { reg := some key, code := ERROR_INVALID_PARAMETER,
          err := some ErrorId.invalid_encoding }
      else
        let key1 : RegKey :=
          if multi_sz_contains raw source_name then key
          else { key with
                 sources := some (raw.dropLast ++ source_name ++ [0, 0]) }
        let old := (assoc_lookup key1.source_subkeys source_name).getD
          empty_source_values
        let key2 : RegKey :=
          { key1 with
            source_subkeys := set_assoc key1.source_subkeys source_name
              (populate_event_source_subkey old category_count category_file
                event_file parameter_file types_supported) }
        { reg := some key2, code := ERROR_SUCCESS, err := none }

/-- The arguments of one add_event_source invocation, as a record (used to
state which fixed defaults stumpless_add_default_wel_event_source passes). -/
structure AddEventSourceCall where
  subkey_name : List Nat
  source_name : List Nat
  category_count : Nat
  category_file : Option (List Nat)
  event_file : Option (List Nat)
  parameter_file : Option (List Nat)
  types_supported : Nat
deriving DecidableEq, Repr

/-- The WCHAR codes of the fixed source name L"Stumpless". -/
def stumpless_source_name_w : List Nat :=
  [83, 116, 117, 109, 112, 108, 101, 115, 115]

/-- Translation of the add_event_source invocation made by
stumpless_add_default_wel_event_source (part_000 lines 820-880) once the
module path has been resolved (GetModuleHandleExW / GetModuleFileNameW are
external; the resolved path is the library_path parameter): subkey and
source name are both L"Stumpless" (the C passes the same double-NUL buffer
of 22 bytes for both), 8 categories, the resolved path as the category file
and the event file, NULL as the parameter file, and the five-flag type
mask. -/
def default_wel_event_source_call (library_path : List Nat) :
    AddEventSourceCall :=
  { subkey_name := stumpless_source_name_w
    source_name := stumpless_source_name_w
    category_count := 8
    category_file := some library_path
    event_file := some library_path
    parameter_file := none
    types_supported :=
      EVENTLOG_AUDIT_FAILURE ||| EVENTLOG_AUDIT_SUCCESS |||
        EVENTLOG_ERROR_TYPE ||| EVENTLOG_INFORMATION_TYPE |||
        EVENTLOG_WARNING_TYPE }

/-- Translation of stumpless_add_default_wel_event_source as a registry
transformation: runs add_event_source with the fixed default arguments. -/
def stumpless_add_default_wel_event_source (reg : Option RegKey)
    (library_path : List Nat) : InstallResult :=
  let c := default_wel_event_source_call library_path
  add_event_source reg c.source_name c.category_count c.category_file
    c.event_file c.parameter_file c.types_supported

/-- Specification predicate for the growth policy of the insertion arrays:
after an operation that grows for index k, both arrays have length exactly
k + 1, the stored count is k + 1, every cell below the old count is
unchanged, and every newly created cell strictly below k holds NULL (the
cell at k itself is stated separately by each theorem, since the setters
write it). -/
def growth_spec (old : wel_data) (k : Nat) (nu : wel_data) : Prop :=
  nu.insertion_params.length = k + 1 ∧
  nu.insertion_strings.length = k + 1 ∧
  nu.insertion_count = k + 1 ∧
  (∀ i, i < old.insertion_count →
    nu.insertion_params.getD i none = old.insertion_params.getD i none ∧
    nu.insertion_strings.getD i none = old.insertion_strings.getD i none) ∧
  (∀ i, old.insertion_count ≤ i → i < k →
    nu.insertion_params.getD i none = none ∧
    nu.insertion_strings.getD i none = none)

/-- A concrete param used by the concrete-input theorems. -/
def param_A : stumpless_param := { value := [65] }

/-- A concrete entry whose insertion slot 0 holds a borrowed param reference
and no owned string. -/
def entry_with_param : stumpless_entry :=
  { prival := 11
    wel_data :=
      { fresh_wel_data with
        insertion_strings := [none]
        insertion_params := [some param_A]
        insertion_count := 1 } }

/-- A concrete source record with one owned insertion string, used to drive
copy_wel_data into its array-allocation branch. -/
def src_with_string : wel_data :=
  { fresh_wel_data with
    insertion_strings := [some [65]]
    insertion_params := [none]
    insertion_count := 1 }

/-! Helper lemmas about the list model. -/

theorem grow_fill_length (l : List (Option α)) (c m : Nat) :
    (grow_fill l c m).length = m + 1 := by
  simp [grow_fill]

theorem grow_fill_getD (l : List (Option α)) (c m i : Nat) (h : i ≤ m) :
    (grow_fill l c m).getD i none = if i < c then l.getD i none else none := by
  simp [grow_fill, List.getD_eq_getElem?_getD, List.getElem?_map,
    List.getElem?_range (Nat.lt_succ_of_le h)]

theorem getD_set_self (l : List (Option α)) (i : Nat) (a : Option α)
    (h : i < l.length) : (l.set i a).getD i none = a := by
  simp [List.getD_eq_getElem?_getD, List.getElem?_set_self', h]

theorem getD_set_ne (l : List (Option α)) (i j : Nat) (a : Option α)
    (h : i ≠ j) : (l.set i a).getD j none = l.getD j none := by
  simp [List.getD_eq_getElem?_getD, List.getElem?_set_ne h]

theorem resize_ok_eq (d : wel_data) (k : Nat) (o : List Bool)
    (hok : (resize_insertion_params d k o).2.1 = true) :
    (resize_insertion_params d k o).1 =
      { d with
        insertion_params := grow_fill d.insertion_params d.insertion_count k,
        insertion_strings := grow_fill d.insertion_strings d.insertion_count k,
        insertion_count := k + 1 } := by
  unfold resize_insertion_params at hok ⊢
  by_cases h1 : (alloc_step o).1 = false
  · simp [h1] at hok
  · by_cases h2 : (alloc_step (alloc_step o).2).1 = false
    · simp [h1, h2] at hok
    · simp [h1, h2]

/-- C3: for the priority value 11, which encodes facility 1 and severity 3
(ERR), with no explicit overrides set (a fresh wel_data record), the derived
event type is EVENTLOG_ERROR_TYPE, the derived category is 4, and the
derived event identifier is (1 >>> 3) + EVENTLOG_ERROR_TYPE * 23 + 1. -/
theorem wel_C3_derivation :
    stumpless_get_wel_type { prival := 11, wel_data := fresh_wel_data } =
      EVENTLOG_ERROR_TYPE ∧
    stumpless_get_wel_category { prival := 11, wel_data := fresh_wel_data } = 4 ∧
    stumpless_get_wel_event_id { prival := 11, wel_data := fresh_wel_data } =
      (1 >>> 3) + EVENTLOG_ERROR_TYPE * 23 + 1 := by
  decide

/-- C4: for every entry, each of the three metadata getters returns the
explicit override exactly when the corresponding is-set flag is true, and
otherwise the value the Prival mapper derives from the entry's current
priority value. -/
theorem wel_C4_getters (e : stumpless_entry) :
    stumpless_get_wel_category e =
      (if e.wel_data.category_set then e.wel_data.category
       else get_category e.prival) ∧
    stumpless_get_wel_event_id e =
      (if e.wel_data.event_id_set then e.wel_data.event_id
       else get_event_id e.prival) ∧
    stumpless_get_wel_type e =
      (if e.wel_data.type_set then e.wel_data.type
       else get_type e.prival) := by
  refine ⟨rfl, rfl, rfl⟩

/-- C10: a successfully initialized wel_data record has all three override
flags false, insertion count 0 and both insertion arrays empty; hence every
metadata getter on an entry carrying it derives its value from the priority
value, and every insertion access at any index fails with
IndexOutOfBounds. -/
theorem wel_C10_fresh (o : List Bool) (d : wel_data)
    (h : (init_wel_data o).1 = some d) :
    d.category_set = false ∧ d.event_id_set = false ∧ d.type_set = false ∧
    d.insertion_count = 0 ∧ d.insertion_strings = [] ∧
    d.insertion_params = [] ∧
    (∀ p : Nat,
      stumpless_get_wel_category { prival := p, wel_data := d } =
        get_category p ∧
      stumpless_get_wel_event_id { prival := p, wel_data := d } =
        get_event_id p ∧
      stumpless_get_wel_type { prival := p, wel_data := d } = get_type p) ∧
    (∀ p i : Nat,
      stumpless_get_wel_insertion_param { prival := p, wel_data := d } i =
        (none, some ErrorId.index_out_of_bounds) ∧
      ∀ (dec : List Nat → Option (List Nat)) (o' : List Bool),
        stumpless_get_wel_insertion_string dec
          { prival := p, wel_data := d } i o' =
          (none, some ErrorId.index_out_of_bounds)) := by
  have hd : d = fresh_wel_data := by
    unfold init_wel_data at h
    by_cases h1 : (alloc_step o).1 = false
    · simp [h1] at h
    · simp [h1] at h
      exact h.symm
  subst hd
  refine ⟨rfl, rfl, rfl, rfl, rfl, rfl, ?_, ?_⟩
  · intro p
    exact ⟨rfl, rfl, rfl⟩
  · intro p i
    constructor
    · simp [stumpless_get_wel_insertion_param, fresh_wel_data]
    · intro dec o'
      simp [stumpless_get_wel_insertion_string, fresh_wel_data]

/-- C10 witness: initialization with the all-success oracle yields the fresh
record, at which the theorem's conclusions hold. -/
theorem wel_C10_fresh_witness :
    (init_wel_data []).1 = some fresh_wel_data ∧
    fresh_wel_data.insertion_count = 0 := by
  exact ⟨rfl, (wel_C10_fresh [] fresh_wel_data rfl).2.2.2.1⟩

theorem set_param_resize_case (p : Nat) (d : wel_data) (k : Nat)
    (pa : Option stumpless_param) (o : List Bool)
    (hk : d.insertion_count ≤ k)
    (hok : (stumpless_set_wel_insertion_param ⟨p, d⟩ k pa o).2.1 = true) :
    (resize_insertion_params d k o).2.1 = true ∧
    (stumpless_set_wel_insertion_param ⟨p, d⟩ k pa o).1.wel_data =
      { (resize_insertion_params d k o).1 with
        insertion_params :=
          (resize_insertion_params d k o).1.insertion_params.set k pa,
        insertion_strings :=
          (resize_insertion_params d k o).1.insertion_strings.set k none } := by
  by_cases hr : (resize_insertion_params d k o).2.1 = true
  · constructor
    · exact hr
    · simp [stumpless_set_wel_insertion_param, hk, hr]
  · have hr' : (resize_insertion_params d k o).2.1 = false := by
      cases h : (resize_insertion_params d k o).2.1 <;> simp_all
    simp [stumpless_set_wel_insertion_param, hk, hr'] at hok

theorem swap_resize_case (p : Nat) (d : wel_data) (k : Nat)
    (w : List Nat) (o : List Bool)
    (hk : d.insertion_count ≤ k)
    (hok : (swap_wel_insertion_string ⟨p, d⟩ k w o).2.1 = true) :
    (resize_insertion_params d k o).2.1 = true ∧
    (swap_wel_insertion_string ⟨p, d⟩ k w o).1.wel_data =
      { (resize_insertion_params d k o).1 with
        insertion_strings :=
          (resize_insertion_params d k o).1.insertion_strings.set k (some w) } := by
  by_cases hr : (resize_insertion_params d k o).2.1 = true
  · constructor
    · exact hr
    · simp [swap_wel_insertion_string, hk, hr]
  · have hr' : (resize_insertion_params d k o).2.1 = false := by
      cases h : (resize_insertion_params d k o).2.1 <;> simp_all
    simp [swap_wel_insertion_string, hk, hr'] at hok

theorem resize_growth_spec (d : wel_data) (k : Nat) (o : List Bool)
    (hk : d.insertion_count ≤ k)
    (hok : (resize_insertion_params d k o).2.1 = true) :
    growth_spec d k (resize_insertion_params d k o).1 ∧
    (resize_insertion_params d k o).1.insertion_params.getD k none = none ∧
    (resize_insertion_params d k o).1.insertion_strings.getD k none = none := by
  have heq := resize_ok_eq d k o hok
  rw [heq]
  refine ⟨⟨grow_fill_length _ _ _, grow_fill_length _ _ _, rfl, ?_, ?_⟩, ?_, ?_⟩
  · intro i hi
    constructor
    · rw [grow_fill_getD _ _ _ _ (by omega), if_pos hi]
    · rw [grow_fill_getD _ _ _ _ (by omega), if_pos hi]
  · intro i hi hik
    constructor
    · rw [grow_fill_getD _ _ _ _ (by omega), if_neg (by omega)]
    · rw [grow_fill_getD _ _ _ _ (by omega), if_neg (by omega)]
  · rw [grow_fill_getD _ _ _ _ (by omega), if_neg (by omega)]
  · rw [grow_fill_getD _ _ _ _ (by omega), if_neg (by omega)]

/-- C7: every insertion setter call at an index k at or past the current
count that succeeds grows both parallel arrays to length exactly k + 1,
fills every newly created slot with NULL, sets the count to k + 1 and leaves
every previously set slot below the old count unchanged; stated for the
growth operation itself (resize_insertion_params, where the slot at k is
also NULL), for stumpless_set_wel_insertion_param (which then writes the
param into slot k and NULL into the string slot) and for
swap_wel_insertion_string, the common core of the two string setters (which
then writes the owned string into slot k, the param slot staying NULL). -/
theorem wel_C7_growth (p : Nat) (d : wel_data) (k : Nat)
    (pa : Option stumpless_param) (w : List Nat) (o : List Bool)
    (hk : d.insertion_count ≤ k) :
    ((resize_insertion_params d k o).2.1 = true →
      growth_spec d k (resize_insertion_params d k o).1 ∧
      (resize_insertion_params d k o).1.insertion_params.getD k none = none ∧
      (resize_insertion_params d k o).1.insertion_strings.getD k none = none) ∧
    ((stumpless_set_wel_insertion_param ⟨p, d⟩ k pa o).2.1 = true →
      growth_spec d k
        (stumpless_set_wel_insertion_param ⟨p, d⟩ k pa o).1.wel_data ∧
      (stumpless_set_wel_insertion_param ⟨p, d⟩ k pa o).1.wel_data.insertion_params.getD k none = pa ∧
      (stumpless_set_wel_insertion_param ⟨p, d⟩ k pa o).1.wel_data.insertion_strings.getD k none = none) ∧
    ((swap_wel_insertion_string ⟨p, d⟩ k w o).2.1 = true →
      growth_spec d k (swap_wel_insertion_string ⟨p, d⟩ k w o).1.wel_data ∧
      (swap_wel_insertion_string ⟨p, d⟩ k w o).1.wel_data.insertion_params.getD k none = none ∧
      (swap_wel_insertion_string ⟨p, d⟩ k w o).1.wel_data.insertion_strings.getD k none = some w) := by
  refine ⟨?_, ?_, ?_⟩
  · intro hok
    exact resize_growth_spec d k o hk hok
  · intro hok
    obtain ⟨hr, heq⟩ := set_param_resize_case p d k pa o hk hok
    obtain ⟨⟨hl1, hl2, hcnt, hlow, hmid⟩, hpk, hsk⟩ :=
      resize_growth_spec d k o hk hr
    have hP : (stumpless_set_wel_insertion_param ⟨p, d⟩ k pa o).1.wel_data.insertion_params =
        (resize_insertion_params d k o).1.insertion_params.set k pa := by
      rw [heq]
    have hS : (stumpless_set_wel_insertion_param ⟨p, d⟩ k pa o).1.wel_data.insertion_strings =
        (resize_insertion_params d k o).1.insertion_strings.set k none := by
      rw [heq]
    have hC : (stumpless_set_wel_insertion_param ⟨p, d⟩ k pa o).1.wel_data.insertion_count =
        (resize_insertion_params d k o).1.insertion_count := by
      rw [heq]
    refine ⟨⟨?_, ?_, ?_, ?_, ?_⟩, ?_, ?_⟩
    · rw [hP, List.length_set]; exact hl1
    · rw [hS, List.length_set]; exact hl2
    · rw [hC]; exact hcnt
    · intro i hi
      have hki : k ≠ i := by omega
      constructor
      · rw [hP, getD_set_ne _ k i pa hki]; exact (hlow i hi).1
      · rw [hS, getD_set_ne _ k i none hki]; exact (hlow i hi).2
    · intro i hi hik
      have hki : k ≠ i := by omega
      constructor
      · rw [hP, getD_set_ne _ k i pa hki]; exact (hmid i hi hik).1
      · rw [hS, getD_set_ne _ k i none hki]; exact (hmid i hi hik).2
    · rw [hP, getD_set_self _ k pa (by omega)]
    · rw [hS, getD_set_self _ k none (by omega)]
  · intro hok
    obtain ⟨hr, heq⟩ := swap_resize_case p d k w o hk hok
    obtain ⟨⟨hl1, hl2, hcnt, hlow, hmid⟩, hpk, hsk⟩ :=
      resize_growth_spec d k o hk hr
    have hP : (swap_wel_insertion_string ⟨p, d⟩ k w o).1.wel_data.insertion_params =
        (resize_insertion_params d k o).1.insertion_params := by
      rw [heq]
    have hS : (swap_wel_insertion_string ⟨p, d⟩ k w o).1.wel_data.insertion_strings =
        (resize_insertion_params d k o).1.insertion_strings.set k (some w) := by
      rw [heq]
    have hC : (swap_wel_insertion_string ⟨p, d⟩ k w o).1.wel_data.insertion_count =
        (resize_insertion_params d k o).1.insertion_count := by
      rw [heq]
    refine ⟨⟨?_, ?_, ?_, ?_, ?_⟩, ?_, ?_⟩
    · rw [hP]; exact hl1
    · rw [hS, List.length_set]; exact hl2
    · rw [hC]; exact hcnt
    · intro i hi
      have hki : k ≠ i := by omega
      constructor
      · rw [hP]; exact (hlow i hi).1
      · rw [hS, getD_set_ne _ k i (some w) hki]; exact (hlow i hi).2
    · intro i hi hik
      have hki : k ≠ i := by omega
      constructor
      · rw [hP]; exact (hmid i hi hik).1
      · rw [hS, getD_set_ne _ k i (some w) hki]; exact (hmid i hi hik).2
    · rw [hP]; exact hpk
    · rw [hS, getD_set_self _ k (some w) (by omega)]

/-- C7 witness: growing the fresh (empty) record for index 1 with the
all-success oracle satisfies the growth specification. -/
theorem wel_C7_growth_witness :
    fresh_wel_data.insertion_count ≤ 1 ∧
    (growth_spec fresh_wel_data 1 (resize_insertion_params fresh_wel_data 1 []).1 ∧
      (resize_insertion_params fresh_wel_data 1 []).1.insertion_params.getD 1 none = none ∧
      (resize_insertion_params fresh_wel_data 1 []).1.insertion_strings.getD 1 none = none) :=
  ⟨by decide, (wel_C7_growth 0 fresh_wel_data 1 none [72] [] (by decide)).1 rfl⟩

/-- C1 counterexample: on an entry whose insertion slot 0 holds a borrowed
param reference, stumpless_set_wel_insertion_string_w at index 0 succeeds
and installs the owned string, yet the param reference at index 0 is still
present afterwards, so the setter did not clear the other representation
and both are present at once. -/
theorem wel_C1_counterexample :
    (stumpless_set_wel_insertion_string_w entry_with_param 0 [72] []).2.1 = true ∧
    (stumpless_set_wel_insertion_string_w entry_with_param 0 [72]
      []).1.wel_data.insertion_strings.getD 0 none = some [72] ∧
    (stumpless_set_wel_insertion_string_w entry_with_param 0 [72]
      []).1.wel_data.insertion_params.getD 0 none = some param_A := by
  decide

/-- C1 (amended): stumpless_set_wel_insertion_param, when it succeeds at
index i, clears the owned-string cell at i (freeing the previous owned
string) and installs the reference, so the mutual-exclusion invariant holds
after it; the two string setters (whose shared core is
swap_wel_insertion_string) install the owned string at i but, when i is
below the current count, leave the insertion_params array — including an
existing reference at i — completely unchanged, so they do not clear the
other representation. -/
theorem wel_C1_amended (p : Nat) (d : wel_data) (i : Nat)
    (pa : Option stumpless_param) (w : List Nat) (o : List Bool)
    (hwfp : d.insertion_params.length = d.insertion_count)
    (hwfs : d.insertion_strings.length = d.insertion_count) :
    ((stumpless_set_wel_insertion_param ⟨p, d⟩ i pa o).2.1 = true →
      (stumpless_set_wel_insertion_param ⟨p, d⟩ i pa
        o).1.wel_data.insertion_strings.getD i none = none ∧
      (stumpless_set_wel_insertion_param ⟨p, d⟩ i pa
        o).1.wel_data.insertion_params.getD i none = pa) ∧
    (i < d.insertion_count →
      (swap_wel_insertion_string ⟨p, d⟩ i w o).2.1 = true ∧
      (swap_wel_insertion_string ⟨p, d⟩ i w
        o).1.wel_data.insertion_strings.getD i none = some w ∧
      (swap_wel_insertion_string ⟨p, d⟩ i w
        o).1.wel_data.insertion_params = d.insertion_params) := by
  constructor
  · intro hok
    by_cases hc : d.insertion_count ≤ i
    · obtain ⟨hr, heq⟩ := set_param_resize_case p d i pa o hc hok
      obtain ⟨⟨hl1, hl2, hcnt, _, _⟩, _, _⟩ := resize_growth_spec d i o hc hr
      have hP : (stumpless_set_wel_insertion_param ⟨p, d⟩ i pa
          o).1.wel_data.insertion_params =
          (resize_insertion_params d i o).1.insertion_params.set i pa := by
        rw [heq]
      have hS : (stumpless_set_wel_insertion_param ⟨p, d⟩ i pa
          o).1.wel_data.insertion_strings =
          (resize_insertion_params d i o).1.insertion_strings.set i none := by
        rw [heq]
      constructor
      · rw [hS, getD_set_self _ i none (by omega)]
      · rw [hP, getD_set_self _ i pa (by omega)]
    · have hi : i < d.insertion_count := by omega
      have heq2 : (stumpless_set_wel_insertion_param ⟨p, d⟩ i pa o).1.wel_data =
          { d with
            insertion_params := d.insertion_params.set i pa,
            insertion_strings := d.insertion_strings.set i none } := by
        simp [stumpless_set_wel_insertion_param, hc]
      have hP : (stumpless_set_wel_insertion_param ⟨p, d⟩ i pa
          o).1.wel_data.insertion_params = d.insertion_params.set i pa := by
        rw [heq2]
      have hS : (stumpless_set_wel_insertion_param ⟨p, d⟩ i pa
          o).1.wel_data.insertion_strings = d.insertion_strings.set i none := by
        rw [heq2]
      constructor
      · rw [hS, getD_set_self _ i none (by omega)]
      · rw [hP, getD_set_self _ i pa (by omega)]
  · intro hi
    have hc : ¬ d.insertion_count ≤ i := by omega
    have heq2 : swap_wel_insertion_string ⟨p, d⟩ i w o =
        ({ prival := p,
           wel_data :=
             { d with
               insertion_strings := d.insertion_strings.set i (some w) } },
         true, o) := by
      simp [swap_wel_insertion_string, hc]
    refine ⟨?_, ?_, ?_⟩
    · rw [heq2]
    · rw [heq2]
      exact getD_set_self _ i (some w) (by omega)
    · rw [heq2]

/-- C1 witness: on the concrete entry whose slot 0 holds a param reference,
setting a none param at slot 0 with the all-success oracle clears the string
slot and installs the reference, and the in-bounds string swap leaves the
params array unchanged. -/
theorem wel_C1_amended_witness :
    (entry_with_param.wel_data.insertion_params.length =
      entry_with_param.wel_data.insertion_count ∧
     entry_with_param.wel_data.insertion_strings.length =
      entry_with_param.wel_data.insertion_count) ∧
    (0 < entry_with_param.wel_data.insertion_count →
      (swap_wel_insertion_string ⟨11, entry_with_param.wel_data⟩ 0 [72] []).2.1 = true ∧
      (swap_wel_insertion_string ⟨11, entry_with_param.wel_data⟩ 0 [72]
        []).1.wel_data.insertion_strings.getD 0 none = some [72] ∧
      (swap_wel_insertion_string ⟨11, entry_with_param.wel_data⟩ 0 [72]
        []).1.wel_data.insertion_params =
        entry_with_param.wel_data.insertion_params) :=
  ⟨⟨by decide, by decide⟩,
   (wel_C1_amended 11 entry_with_param.wel_data 0 none [72] []
     (by decide) (by decide)).2⟩

/-- C9: stumpless_set_wel_insertion_param accepts a NULL (none) param
without raising any error: for every entry state and every index, under the
all-success allocation oracle the call succeeds (growing the arrays if
needed), clears and frees any owned string at the index, installs the NULL
reference, and a subsequent stumpless_get_wel_insertion_param at the index
returns NULL with no error raised. -/
theorem wel_C9_null_param (p : Nat) (d : wel_data) (i : Nat)
    (hwfp : d.insertion_params.length = d.insertion_count)
    (hwfs : d.insertion_strings.length = d.insertion_count) :
    (stumpless_set_wel_insertion_param ⟨p, d⟩ i none []).2.1 = true ∧
    (stumpless_set_wel_insertion_param ⟨p, d⟩ i none []).2.2.1 = none ∧
    (stumpless_set_wel_insertion_param ⟨p, d⟩ i none
      []).1.wel_data.insertion_params.getD i none = none ∧
    (stumpless_set_wel_insertion_param ⟨p, d⟩ i none
      []).1.wel_data.insertion_strings.getD i none = none ∧
    stumpless_get_wel_insertion_param
      (stumpless_set_wel_insertion_param ⟨p, d⟩ i none []).1 i =
      (none, none) := by
  by_cases hc : d.insertion_count ≤ i
  · have hr : (resize_insertion_params d i []).2.1 = true := by
      simp [resize_insertion_params, alloc_step]
    have hok : (stumpless_set_wel_insertion_param ⟨p, d⟩ i none []).2.1 = true := by
      simp [stumpless_set_wel_insertion_param, hc, hr]
    obtain ⟨_, heq⟩ := set_param_resize_case p d i none [] hc hok
    obtain ⟨⟨hl1, hl2, hcnt, _, _⟩, _, _⟩ := resize_growth_spec d i [] hc hr
    have hP : (stumpless_set_wel_insertion_param ⟨p, d⟩ i none
        []).1.wel_data.insertion_params =
        (resize_insertion_params d i []).1.insertion_params.set i none := by
      rw [heq]
    have hS : (stumpless_set_wel_insertion_param ⟨p, d⟩ i none
        []).1.wel_data.insertion_strings =
        (resize_insertion_params d i []).1.insertion_strings.set i none := by
      rw [heq]
    have hC : (stumpless_set_wel_insertion_param ⟨p, d⟩ i none
        []).1.wel_data.insertion_count = i + 1 := by
      rw [heq]
      exact hcnt
    have hgP : (stumpless_set_wel_insertion_param ⟨p, d⟩ i none
        []).1.wel_data.insertion_params.getD i none = none := by
      rw [hP, getD_set_self _ i none (by omega)]
    refine ⟨hok, ?_, hgP, ?_, ?_⟩
    · simp [stumpless_set_wel_insertion_param, hc, hr]
    · rw [hS, getD_set_self _ i none (by omega)]
    · have hgc : ¬ ((stumpless_set_wel_insertion_param ⟨p, d⟩ i none
          []).1.wel_data.insertion_count ≤ i) := by
        rw [hC]
        omega
      unfold stumpless_get_wel_insertion_param
      rw [if_neg hgc, hgP]
  · have hi : i < d.insertion_count := by omega
    have heq2 : (stumpless_set_wel_insertion_param ⟨p, d⟩ i none []).1.wel_data =
        { d with
          insertion_params := d.insertion_params.set i none,
          insertion_strings := d.insertion_strings.set i none } := by
      simp [stumpless_set_wel_insertion_param, hc]
    have hP : (stumpless_set_wel_insertion_param ⟨p, d⟩ i none
        []).1.wel_data.insertion_params = d.insertion_params.set i none := by
      rw [heq2]
    have hS : (stumpless_set_wel_insertion_param ⟨p, d⟩ i none
        []).1.wel_data.insertion_strings = d.insertion_strings.set i none := by
      rw [heq2]
    have hC : (stumpless_set_wel_insertion_param ⟨p, d⟩ i none
        []).1.wel_data.insertion_count = d.insertion_count := by
      rw [heq2]
    have hgP : (stumpless_set_wel_insertion_param ⟨p, d⟩ i none
        []).1.wel_data.insertion_params.getD i none = none := by
      rw [hP, getD_set_self _ i none (by omega)]
    refine ⟨?_, ?_, hgP, ?_, ?_⟩
    · simp [stumpless_set_wel_insertion_param, hc]
    · simp [stumpless_set_wel_insertion_param, hc]
    · rw [hS, getD_set_self _ i none (by omega)]
    · have hgc : ¬ ((stumpless_set_wel_insertion_param ⟨p, d⟩ i none
          []).1.wel_data.insertion_count ≤ i) := by
        rw [hC]
        omega
      unfold stumpless_get_wel_insertion_param
      rw [if_neg hgc, hgP]

/-- C9 witness: on the concrete entry with a param reference at slot 0,
setting a none param at index 2 succeeds, grows the arrays and reads back
NULL with no error. -/
theorem wel_C9_null_param_witness :
    (entry_with_param.wel_data.insertion_params.length =
       entry_with_param.wel_data.insertion_count ∧
     entry_with_param.wel_data.insertion_strings.length =
       entry_with_param.wel_data.insertion_count) ∧
    stumpless_get_wel_insertion_param
      (stumpless_set_wel_insertion_param
        ⟨11, entry_with_param.wel_data⟩ 2 none []).1 2 = (none, none) :=
  ⟨⟨by decide, by decide⟩,
   (wel_C9_null_param 11 entry_with_param.wel_data 2
     (by decide) (by decide)).2.2.2.2⟩

/-- C8 counterexample: copying from a source with one owned insertion
string under an oracle whose second allocation (the params array of the
destination) fails makes copy_wel_data return NULL with an AllocationError,
yet the destination entry still has an attached metadata record, so the
failure does not leave the destination without attached metadata. -/
theorem wel_C8_counterexample :
    (copy_wel_data src_with_string [true, false]).ok = false ∧
    (copy_wel_data src_with_string [true, false]).err =
      some ErrorId.allocation_failure ∧
    (copy_wel_data src_with_string [true, false]).dest_data ≠ none := by
  decide

/-- C8 (amended): whenever copy_wel_data fails, the failure is an
allocation failure and it returns NULL with AllocationError; the
destination is left without attached metadata exactly when the very first
allocation (the metadata record itself, in config_initialize_wel_data)
failed — a failure of any later allocation leaves the already-attached
record on the destination entry. -/
theorem wel_C8_amended (src : wel_data) (o : List Bool)
    (hfail : (copy_wel_data src o).ok = false) :
    (copy_wel_data src o).err = some ErrorId.allocation_failure ∧
    ((copy_wel_data src o).dest_data = none ↔ (alloc_step o).1 = false) := by
  unfold copy_wel_data at hfail ⊢
  by_cases h0 : (alloc_step o).1 = false
  · simp [h0]
  · simp only [h0, if_false] at hfail ⊢
    by_cases hc : src.insertion_count = 0
    · simp [hc] at hfail
    · simp only [hc, if_false] at hfail ⊢
      by_cases h1 : (alloc_step (alloc_step o).2).1 = false
      · simp [h0, h1]
      · simp only [h1, if_false] at hfail ⊢
        by_cases h2 : (alloc_step (alloc_step (alloc_step o).2).2).1 = false
        · simp [h0, h2]
        · simp only [h2, if_false] at hfail ⊢
          rcases hsl : copy_slots
              ((List.range src.insertion_count).map fun i =>
                (src.insertion_params.getD i none,
                 src.insertion_strings.getD i none))
              (alloc_step (alloc_step (alloc_step o).2).2).2 with ⟨r, o2⟩
          cases r with
          | none => simp [h0]
          | some pr =>
            rcases pr with ⟨ps, ss⟩
            simp only [List.getD_eq_getElem?_getD] at hsl
            simp [hsl] at hfail

/-- C8 witness: an oracle whose very first allocation fails makes
copy_wel_data fail with AllocationError and no metadata attached. -/
theorem wel_C8_amended_witness :
    (copy_wel_data src_with_string [false]).ok = false ∧
    ((copy_wel_data src_with_string [false]).err =
        some ErrorId.allocation_failure ∧
      ((copy_wel_data src_with_string [false]).dest_data = none ↔
        (alloc_step [false]).1 = false)) :=
  ⟨by decide, wel_C8_amended src_with_string [false] (by decide)⟩

/-- C2 counterexample: for the concrete resolved module path [67], the
default installer call passes the path as the category message file and the
event message file but NULL (none) as the parameter message file, so the
resolved path is not supplied as all three message-file values. -/
theorem wel_C2_counterexample :
    (default_wel_event_source_call [67]).category_file = some [67] ∧
    (default_wel_event_source_call [67]).event_file = some [67] ∧
    (default_wel_event_source_call [67]).parameter_file = none ∧
    (default_wel_event_source_call [67]).parameter_file ≠ some [67] := by
  decide

/-- C2 (amended): for every resolved module path,
stumpless_add_default_wel_event_source invokes the installer with the fixed
source name Stumpless (also used as the subkey name), a category count of 8,
a TypesSupported mask that is exactly the union of the audit-success,
audit-failure, error, information and warning flags (and covers each of
them), and the resolved path supplied as the CategoryMessageFile and
EventMessageFile values only — the ParameterMessageFile argument is NULL, so
that registry value is never created by the default installer. -/
theorem wel_C2_default_call (path : List Nat) :
    (default_wel_event_source_call path).subkey_name =
      stumpless_source_name_w ∧
    (default_wel_event_source_call path).source_name =
      stumpless_source_name_w ∧
    (default_wel_event_source_call path).category_count = 8 ∧
    (default_wel_event_source_call path).types_supported =
      (EVENTLOG_AUDIT_FAILURE ||| EVENTLOG_AUDIT_SUCCESS |||
        EVENTLOG_ERROR_TYPE ||| EVENTLOG_INFORMATION_TYPE |||
        EVENTLOG_WARNING_TYPE) ∧
    (default_wel_event_source_call path).types_supported &&&
      EVENTLOG_AUDIT_SUCCESS ≠ 0 ∧
    (default_wel_event_source_call path).types_supported &&&
      EVENTLOG_AUDIT_FAILURE ≠ 0 ∧
    (default_wel_event_source_call path).types_supported &&&
      EVENTLOG_ERROR_TYPE ≠ 0 ∧
    (default_wel_event_source_call path).types_supported &&&
      EVENTLOG_INFORMATION_TYPE ≠ 0 ∧
    (default_wel_event_source_call path).types_supported &&&
      EVENTLOG_WARNING_TYPE ≠ 0 ∧
    (default_wel_event_source_call path).category_file = some path ∧
    (default_wel_event_source_call path).event_file = some path ∧
    (default_wel_event_source_call path).parameter_file = none := by
  have hm : ∀ f : Nat,
      (EVENTLOG_AUDIT_FAILURE ||| EVENTLOG_AUDIT_SUCCESS |||
        EVENTLOG_ERROR_TYPE ||| EVENTLOG_INFORMATION_TYPE |||
        EVENTLOG_WARNING_TYPE) &&& f ≠ 0 →
      (default_wel_event_source_call path).types_supported &&& f ≠ 0 :=
    fun f h => h
  exact ⟨rfl, rfl, rfl, rfl, hm _ (by decide), hm _ (by decide),
    hm _ (by decide), hm _ (by decide), hm _ (by decide), rfl, rfl, rfl⟩

/-! Helper lemmas about MULTI_SZ values built from a NUL-free name. -/

theorem takeWhile_name_append (name rest : List Nat)
    (hz : ∀ c ∈ name, c ≠ 0) :
    (name ++ 0 :: rest).takeWhile (fun c => c != 0) = name := by
  induction name with
  | nil => simp
  | cons a t ih =>
    have ht : ∀ c ∈ t, c ≠ 0 := fun c hc => hz c (by simp [hc])
    have ha' : (a != 0) = true := by
      simpa using hz a (by simp)
    simp [List.takeWhile, ha', ih ht]

theorem drop_name_append (name : List Nat) :
    (name ++ [0, 0]).drop (name.length + 1) = [0] := by
  induction name with
  | nil => rfl
  | cons a t ih =>
    exact ih

theorem getD_name_append_len (name : List Nat) :
    (name ++ [0, 0]).getD name.length 0 = 0 := by
  induction name with
  | nil => rfl
  | cons a t ih =>
    simpa [List.getD] using ih

theorem getD_name_append_len_succ (name : List Nat) :
    (name ++ [0, 0]).getD (name.length + 1) 0 = 0 := by
  induction name with
  | nil => rfl
  | cons a t ih =>
    simpa [List.getD] using ih

theorem wstr_at_name_append (name : List Nat) (hz : ∀ c ∈ name, c ≠ 0) :
    wstr_at (name ++ [0, 0]) = name := by
  have : name ++ [0, 0] = name ++ 0 :: [0] := rfl
  rw [wstr_at, this, takeWhile_name_append name [0] hz]

theorem multi_sz_contains_name_append (name : List Nat)
    (h0 : name ≠ []) (hz : ∀ c ∈ name, c ≠ 0) :
    multi_sz_contains (name ++ [0, 0]) name = true := by
  rw [multi_sz_contains]
  have hne : ¬ (name ++ [0, 0] = []) := by simp
  rw [dif_neg hne, wstr_at_name_append name hz]
  have hlen : ¬ (name.length = 0) := by
    simpa using h0
  rw [if_neg hlen, if_pos rfl]

theorem msz_strings_name_append (name : List Nat)
    (h0 : name ≠ []) (hz : ∀ c ∈ name, c ≠ 0) :
    msz_strings (name ++ [0, 0]) = [name] := by
  rw [msz_strings]
  have hne : ¬ (name ++ [0, 0] = []) := by simp
  rw [dif_neg hne, wstr_at_name_append name hz]
  have hlen : ¬ (name.length = 0) := by
    simpa using h0
  rw [if_neg hlen, drop_name_append]
  have h1 : msz_strings [0] = [] := by
    rw [msz_strings]
    norm_num [wstr_at]
  rw [h1]

theorem populate_idem (v : SourceValues) (cc : Nat)
    (cf ef pf : Option (List Nat)) (ts : Nat) :
    populate_event_source_subkey
      (populate_event_source_subkey v cc cf ef pf ts) cc cf ef pf ts =
    populate_event_source_subkey v cc cf ef pf ts := by
  cases cf <;> cases ef <;> cases pf <;>
    simp [populate_event_source_subkey]

/-- C5: on the merge path, a Sources value that is non-empty (its first
WCHAR is not NUL) and not terminated with two NUL characters makes
add_event_source raise InvalidEncoding and return ERROR_INVALID_PARAMETER,
with the registry state completely unchanged: neither the Sources value nor
any per-source subkey or typed value is written after the malformed list is
detected. -/
theorem wel_C5_malformed_sources (key : RegKey) (raw : List Nat)
    (name : List Nat) (cc ts : Nat) (cf ef pf : Option (List Nat))
    (hs : key.sources = some raw)
    (hne : raw.headD 0 ≠ 0)
    (hterm : ¬(raw.getD (raw.length - 2) 0 = 0 ∧
               raw.getD (raw.length - 1) 0 = 0)) :
    add_event_source (some key) name cc cf ef pf ts =
      { reg := some key, code := ERROR_INVALID_PARAMETER,
        err := some ErrorId.invalid_encoding } := by
  simp only [add_event_source, hs]
  rw [if_pos ⟨hne, hterm⟩]

/-- C5 witness: a concrete malformed Sources value (first WCHAR 65, last
WCHAR 66) is rejected with InvalidEncoding and no registry mutation. -/
theorem wel_C5_malformed_sources_witness :
    ({ sources := some [65, 0, 66], source_subkeys := [] } : RegKey).sources =
      some [65, 0, 66] ∧
    ([65, 0, 66] : List Nat).headD 0 ≠ 0 ∧
    ¬(([65, 0, 66] : List Nat).getD (([65, 0, 66] : List Nat).length - 2) 0 = 0 ∧
      ([65, 0, 66] : List Nat).getD (([65, 0, 66] : List Nat).length - 1) 0 = 0) ∧
    add_event_source
      (some { sources := some [65, 0, 66], source_subkeys := [] })
      [83] 1 none none none 1 =
      { reg := some { sources := some [65, 0, 66], source_subkeys := [] },
        code := ERROR_INVALID_PARAMETER,
        err := some ErrorId.invalid_encoding } :=
  ⟨rfl, by decide, by decide,
   wel_C5_malformed_sources
     { sources := some [65, 0, 66], source_subkeys := [] }
     [65, 0, 66] [83] 1 1 none none none rfl (by decide) (by decide)⟩

/-- C6: installation is idempotent.  Starting from a registry with no key,
a first add_event_source call succeeds (create-fresh path); a second call
with identical arguments succeeds via the merge path, detects the existing
name in the Sources list and skips rewriting it, repopulates the nested
per-source subkey with identical typed values, and leaves the registry
state exactly equal to the state after the first call, whose Sources list
contains exactly one occurrence of the source name. -/
theorem wel_C6_idempotent (name : List Nat) (cc ts : Nat)
    (cf ef pf : Option (List Nat))
    (h0 : name ≠ []) (hz : ∀ c ∈ name, c ≠ 0) :
    (add_event_source none name cc cf ef pf ts).code = ERROR_SUCCESS ∧
    (add_event_source (add_event_source none name cc cf ef pf ts).reg
      name cc cf ef pf ts).code = ERROR_SUCCESS ∧
    (add_event_source (add_event_source none name cc cf ef pf ts).reg
      name cc cf ef pf ts).reg =
      (add_event_source none name cc cf ef pf ts).reg ∧
    (∃ key : RegKey,
      (add_event_source none name cc cf ef pf ts).reg = some key ∧
      key.sources = some (name ++ [0, 0]) ∧
      msz_strings (name ++ [0, 0]) = [name] ∧
      (msz_strings (name ++ [0, 0])).count name = 1) := by
  have hmsz : msz_strings (name ++ [0, 0]) = [name] :=
    msz_strings_name_append name h0 hz
  have hr1 : (add_event_source none name cc cf ef pf ts).reg =
      some (create_event_source_subkey name cc cf ef pf ts) := rfl
  have hhead : (name ++ [0, 0]).headD 0 ≠ 0 := by
    cases name with
    | nil => exact absurd rfl h0
    | cons a t =>
      simpa using hz a (by simp)
  have hcond : ¬ ((name ++ [0, 0]).headD 0 ≠ 0 ∧
      ¬((name ++ [0, 0]).getD ((name ++ [0, 0]).length - 2) 0 = 0 ∧
        (name ++ [0, 0]).getD ((name ++ [0, 0]).length - 1) 0 = 0)) := by
    intro hx
    apply hx.2
    have hl2 : (name ++ [0, 0]).length - 2 = name.length := by
      simp
    have hl1 : (name ++ [0, 0]).length - 1 = name.length + 1 := by
      simp
    rw [hl2, hl1]
    exact ⟨getD_name_append_len name, getD_name_append_len_succ name⟩
  have hcont : multi_sz_contains (name ++ [0, 0]) name = true :=
    multi_sz_contains_name_append name h0 hz
  have h2 : add_event_source
      (some (create_event_source_subkey name cc cf ef pf ts))
      name cc cf ef pf ts =
      { reg := some (create_event_source_subkey name cc cf ef pf ts),
        code := ERROR_SUCCESS, err := none } := by
    simp only [add_event_source, create_event_source_subkey]
    rw [if_neg hcond, hcont]
    simp only [if_true, assoc_lookup, if_pos rfl, Option.getD_some,
      set_assoc, populate_idem]
  rw [hr1]
  rw [h2]
  refine ⟨rfl, rfl, rfl,
    ⟨create_event_source_subkey name cc cf ef pf ts, rfl, rfl, hmsz, ?_⟩⟩
  rw [hmsz]
  simp

/-- C6 witness: installing the one-character source name [83] twice from an
empty registry leaves the registry of the second call equal to that of the
first. -/
theorem wel_C6_idempotent_witness :
    (([83] : List Nat) ≠ [] ∧ ∀ c ∈ ([83] : List Nat), c ≠ 0) ∧
    (add_event_source (add_event_source none [83] 1 none none none 1).reg
      [83] 1 none none none 1).reg =
      (add_event_source none [83] 1 none none none 1).reg :=
  ⟨⟨by decide, by decide⟩,
   (wel_C6_idempotent [83] 1 1 none none none (by decide) (by decide)).2.2.1⟩
